import Mathlib

/-!
Verification of the session-simulation / behavioral-detection engine of the
vanguard-client-telemetry repository against its natural-language specification.

The TypeScript sources (src/helpers.ts, src/behaviors.ts, src/scenarios.ts,
src/runner.ts, src/logger.ts, run.js) are shallowly embedded below.  JS numbers
are modelled as rationals (all arithmetic in the relevant code paths is exact),
JS strings as Lean strings, and the browser (Playwright) is modelled as an
explicit environment supplying the observations the code reads back from it
(page states after clicks/navigations, selector query results, and the results
of the uniform draws produced by Math.random()).
-/

/-- The observable state of a browser page: its URL, the inner HTML of the
document head, and the inner HTML of the document body.  `document.body.innerHTML`
reads `bodyHtml` directly; Playwright's `page.content()` serializes the whole
document (doctype, html, head and body tags included). -/
structure PageState where
  url : String
  headHtml : String
  bodyHtml : String
deriving DecidableEq, Repr

/-- Playwright's `page.content()`: the full HTML serialization of the page,
including the doctype and the head/body wrapper tags. -/
def pageContent (p : PageState) : String :=
  "<!DOCTYPE html><html><head>" ++ p.headHtml ++ "</head><body>" ++ p.bodyHtml ++ "</body></html>"

/-- helpers.ts getHtmlSnapshot: `page.evaluate(() => document.body.innerHTML)`. -/
def getHtmlSnapshot (p : PageState) : String :=
  p.bodyHtml

/-- helpers.ts isDeadClick: after a 100-300ms settle delay (no observable
effect on the computed value), reads `afterUrl = page.url()` and
`afterHtml = await page.content()`, and returns
`!urlChanged && !htmlChanged` where `urlChanged = beforeUrl !== afterUrl`
and `htmlChanged = beforeHtml !== afterHtml`.  `afterPage` is the page state
at the time of the after-probe. -/
def isDeadClick (afterPage : PageState) (beforeUrl beforeHtml : String) : Bool :=
  (beforeUrl == afterPage.url) && (beforeHtml == pageContent afterPage)

/-- helpers.ts randomInt: `Math.floor(Math.random() * (max - min + 1)) + min`,
with the uniform draw `r` made explicit. -/
def randomInt (min max : ℕ) (r : ℚ) : ℤ :=
  Int.floor (r * ((max : ℚ) - (min : ℚ) + 1)) + (min : ℤ)

/-- helpers.ts randomDelay: the duration waited is `min + Math.random() * (max - min)`,
with the uniform draw `r` made explicit.  The wait has no observable effect
beyond elapsed time. -/
def randomDelayDur (min max : ℚ) (r : ℚ) : ℚ :=
  min + r * (max - min)

/-- helpers.ts randomChoice: `array[Math.floor(Math.random() * array.length)]`,
returning `undefined` (`none`) on an empty array; the uniform draw `r` is explicit. -/
def randomChoice {α : Type} (l : List α) (r : ℚ) : Option α :=
  if l.isEmpty then none else l.get? (Int.toNat (Int.floor (r * (l.length : ℚ))))

/-- The index `Math.floor(r * array.length)` produced inside randomChoice;
used where the surrounding code's reference comparisons (`e !== elementA`,
`e === elementA`) make the chosen list position significant. -/
def randomIdx {α : Type} (l : List α) (r : ℚ) : ℕ :=
  Int.toNat (Int.floor (r * (l.length : ℚ)))

/-- A bounding box as returned by Playwright's `locator.boundingBox()`. -/
structure BoundingBox where
  x : ℚ
  y : ℚ
  width : ℚ
  height : ℚ
deriving DecidableEq, Repr

/-- types.ts ElementInfo. -/
structure ElementInfo where
  selector : String
  tagName : String
  text : Option String
  boundingBox : Option BoundingBox
deriving DecidableEq, Repr

/-- types.ts ScenarioType. -/
inductive ScenarioType where
  | normal_user
  | frustrated_user
  | lost_user
  | error_user
deriving DecidableEq, Repr

/-- types.ts EventType (the closed set of event-type tags). -/
inductive EventType where
  | page_navigation
  | click
  | dead_click
  | rage_click
  | scroll
  | mouse_move
  | console_error
  | page_error
  | network_error
  | refocus
  | u_turn
  | idle
  | session_start
  | session_end
deriving DecidableEq, Repr

/-- A JSON-like value appearing in an event's metadata map. -/
inductive MValue where
  | s (v : String)
  | q (v : ℚ)
  | b (v : Bool)
  | strs (v : List String)
  | obox (v : Option BoundingBox)
  | ostr (v : Option String)
deriving DecidableEq, Repr

/-- The argument of SessionLogger.log: an EventLog without the `ts` and
`session_id` fields (TypeScript type `Omit<EventLog, 'ts' | 'session_id'>`).
Metadata objects are modelled as association lists in source key order. -/
structure EventPayload where
  scenario : ScenarioType
  event_type : EventType
  url : String
  selector : Option String := none
  metadata : List (String × MValue)
deriving DecidableEq, Repr

/-- types.ts EventLog: the full record written to the sink. -/
structure EventLog where
  ts : String
  session_id : String
  scenario : ScenarioType
  event_type : EventType
  url : String
  selector : Option String
  metadata : List (String × MValue)
deriving DecidableEq, Repr

/-- logger.ts SessionLogger: holds the session identifier it was constructed
with (the output stream is the external sink, out of the model). -/
structure SessionLogger where
  sessionId : String
deriving DecidableEq, Repr

/-- logger.ts SessionLogger.log: builds
`{ ts: new Date().toISOString(), session_id: this.sessionId, ...event }`
and appends its JSON line to the sink.  The wall-clock timestamp is supplied
explicitly as `ts`. -/
def SessionLogger.log (lg : SessionLogger) (ts : String) (e : EventPayload) : EventLog :=
  { ts := ts
    session_id := lg.sessionId
    scenario := e.scenario
    event_type := e.event_type
    url := e.url
    selector := e.selector
    metadata := e.metadata }

/-- The record sequence a SessionLogger emits over a list of log calls, the
i-th call made at wall-clock time `tsAt i`. -/
def SessionLogger.run (lg : SessionLogger) (tsAt : ℕ → String) (events : List EventPayload) :
    List EventLog :=
  events.enum.map (fun ie => lg.log (tsAt ie.1) ie.2)

/-- Look up a key in a metadata association list. -/
def metaGet (m : List (String × MValue)) (k : String) : Option MValue :=
  (m.find? (fun kv => kv.1 == k)).map (fun kv => kv.2)

/-- The message and stack of a thrown JS Error. -/
structure ErrInfo where
  message : String
  stack : String
deriving DecidableEq, Repr

/-- behaviors.ts performClick: attempts `locator.click` (failures absorbed),
waits for network idle (failures absorbed), and logs a `click` event with
`url_changed`, `bounding_box` and `text` metadata.  `after` is the page state
once the click attempt and load wait settle; the function never throws. -/
def performClick (p : PageState) (after : PageState) (element : ElementInfo)
    (scenario : ScenarioType) : EventPayload × PageState :=
  ({ scenario := scenario
     event_type := .click
     url := after.url
     selector := some element.selector
     metadata := [("url_changed", .b (p.url != after.url)),
                  ("bounding_box", .obox element.boundingBox),
                  ("text", .ostr element.text)] }, after)

/-- behaviors.ts performDeadClick: captures `beforeUrl`/`beforeHtml`
(the latter via getHtmlSnapshot, i.e. `document.body.innerHTML`), attempts the
click (failures absorbed), classifies via isDeadClick, and logs a `dead_click`
or `click` event carrying the verdict. -/
def performDeadClick (p : PageState) (after : PageState) (element : ElementInfo) :
    EventPayload × PageState :=
  let beforeUrl := p.url
  let beforeHtml := getHtmlSnapshot p
  let isDead := isDeadClick after beforeUrl beforeHtml
  ({ scenario := .normal_user
     event_type := if isDead then .dead_click else .click
     url := after.url
     selector := some element.selector
     metadata := [("is_dead_click", .b isDead),
                  ("bounding_box", .obox element.boundingBox)] }, after)

/-- The environment of one refocusClick invocation: the page state after the
first click settles, whether the second click succeeds within its timeout, and
the page state after a successful second click. -/
structure RefocusEnv where
  afterFirst : PageState
  delayDraw : ℚ
  secondClickOk : Bool
  afterSecond : PageState
deriving Repr

/-- behaviors.ts refocusClick: performClick (which logs one `click` event),
randomDelay(500, 1500), then a second direct `locator.click` on the same
element; only if that second click does not throw is a `refocus` event logged,
with metadata carrying only the element's bounding box. -/
def refocusClick (p : PageState) (env : RefocusEnv) (element : ElementInfo)
    (scenario : ScenarioType) : List EventPayload × PageState :=
  let clickRes := performClick p env.afterFirst element scenario
  if env.secondClickOk then
    ([clickRes.1,
      { scenario := scenario
        event_type := .refocus
        url := env.afterSecond.url
        selector := some element.selector
        metadata := [("bounding_box", .obox element.boundingBox)] }], env.afterSecond)
  else
    ([clickRes.1], clickRes.2)

/-- The environment of one rage-click repetition: `ok = false` means one of the
iteration's probes threw (aborting the burst via the catch/break); `after` is
the page state once the repetition's click attempt settles. -/
structure RageStep where
  ok : Bool
  after : PageState
deriving Repr

/-- The loop body of behaviors.ts rageClick, iterating from index `i` with
`remaining = clickCount - i` repetitions left.  Each non-throwing repetition
captures beforeUrl/beforeHtml, clicks (click failures absorbed by `.catch`),
classifies via isDeadClick, and logs one `rage_click` event; a throwing
repetition breaks out of the loop. -/
def rageClickFrom (element : ElementInfo) (total : ℕ) (env : ℕ → RageStep) :
    ℕ → ℕ → PageState → List EventPayload × PageState
  | 0, _, p => ([], p)
  | remaining + 1, i, p =>
    let step := env i
    if step.ok then
      let beforeUrl := p.url
      let beforeHtml := getHtmlSnapshot p
      let after := step.after
      let isDead := isDeadClick after beforeUrl beforeHtml
      let ev : EventPayload :=
        { scenario := .frustrated_user
          event_type := .rage_click
          url := after.url
          selector := some element.selector
          metadata := [("click_number", .q ((i : ℚ) + 1)),
                       ("total_clicks", .q (total : ℚ)),
                       ("is_dead_click", .b isDead),
                       ("bounding_box", .obox element.boundingBox)] }
      let rest := rageClickFrom element total env remaining (i + 1) after
      (ev :: rest.1, rest.2)
    else
      ([], p)

/-- behaviors.ts rageClick: repeats the click `clickCount` times. -/
def rageClick (p : PageState) (env : ℕ → RageStep) (element : ElementInfo)
    (clickCount : ℕ) : List EventPayload × PageState :=
  rageClickFrom element clickCount env clickCount 0 p

/-- The page state the rage-click loop observes at the start of repetition `j`
(the start page for `j = 0`, afterwards the previous repetition's after-state). -/
def ragePageAt (p : PageState) (env : ℕ → RageStep) : ℕ → PageState
  | 0 => p
  | j + 1 => (env j).after

/-- The `rage_click` event repetition `j` (0-based) of a rage-click burst of
`total` repetitions logs. -/
def expectedRageEvent (p : PageState) (env : ℕ → RageStep) (element : ElementInfo)
    (total : ℕ) (j : ℕ) : EventPayload :=
  let before := ragePageAt p env j
  let after := (env j).after
  let isDead := isDeadClick after before.url (getHtmlSnapshot before)
  { scenario := .frustrated_user
    event_type := .rage_click
    url := after.url
    selector := some element.selector
    metadata := [("click_number", .q ((j : ℚ) + 1)),
                 ("total_clicks", .q (total : ℚ)),
                 ("is_dead_click", .b isDead),
                 ("bounding_box", .obox element.boundingBox)] }

/-- Models JS `String.prototype.split` with a single-character separator on
the character list of the string: `"a,b".split(',') = ["a","b"]`,
`"".split(',') = [""]`. -/
def charSplit (sep : Char) : List Char → List (List Char)
  | [] => [[]]
  | c :: rest =>
    if c == sep then [] :: charSplit sep rest
    else
      match charSplit sep rest with
      | [] => [[c]]
      | g :: gs => (c :: g) :: gs

/-- JS `String.prototype.split` with a single-character separator. -/
def splitJS (s : String) (sep : Char) : List String :=
  (charSplit sep s.data).map (fun l => String.mk l)

/-- The numeric value of a nonempty all-digit character list, `none` otherwise. -/
def digitsToNat? (cs : List Char) : Option ℕ :=
  if cs.isEmpty then none
  else if cs.all Char.isDigit then
    some (cs.foldl (fun n c => 10 * n + (c.toNat - 48)) 0)
  else none

/-- Models JS `parseFloat` on nonnegative decimal numerals (the only shapes the
scenario-mix grammar produces); inputs on which parseFloat would yield NaN are
mapped to `none`. -/
def parseDecimal? (s : String) : Option ℚ :=
  match charSplit '.' s.data with
  | [ip] => (digitsToNat? ip).map (fun n => (n : ℚ))
  | [ip, fp] =>
    match digitsToNat? ip, digitsToNat? fp with
    | some n, some f => some ((n : ℚ) + (f : ℚ) / ((10 : ℚ) ^ fp.length))
    | _, _ => none
  | _ => none

/-- Whether `pat` starts the list `l` (helper for substring containment). -/
def charsStartWith : List Char → List Char → Bool
  | [], _ => true
  | _ :: _, [] => false
  | a :: as, b :: bs => (a == b) && charsStartWith as bs

/-- Models JS `String.prototype.includes`: does `pat` occur contiguously in `l`? -/
def charsContain (pat : List Char) : List Char → Bool
  | [] => pat.isEmpty
  | c :: rest => charsStartWith pat (c :: rest) || charsContain pat rest

/-- JS `String.prototype.includes`. -/
def includesJS (s pat : String) : Bool :=
  charsContain pat.data s.data

/-- JS `String.prototype.toLowerCase` (ASCII-faithful). -/
def toLowerJS (s : String) : String :=
  String.mk (s.data.map Char.toLower)

/-- JS `String.prototype.trim`. -/
def trimJS (s : String) : String :=
  String.mk (((s.data.dropWhile Char.isWhitespace).reverse.dropWhile Char.isWhitespace).reverse)

/-- One element matched by a selector query, as observed through Playwright:
its visibility, its lowercased tag name, its `textContent` (absent when the
read throws or yields null), and its bounding box (absent when unresolvable). -/
structure RawMatch where
  visible : Bool
  tagName : String
  text : Option String
  boundingBox : Option BoundingBox
deriving DecidableEq, Repr

/-- The read-only page probe consumed by element discovery: for each selector
string, the matches `page.locator(selector).all()` yields, or `none` when the
probe for that selector throws. -/
structure DiscoveryPage where
  query : String → Option (List RawMatch)

/-- helpers.ts findClickableElements: the fixed ordered selector list. -/
def clickableSelectors : List String :=
  ["a[href]",
   "button:not([disabled])",
   "input[type=\"button\"]:not([disabled])",
   "input[type=\"submit\"]:not([disabled])",
   "[role=\"button\"]:not([disabled])",
   "select:not([disabled])",
   "input[type=\"checkbox\"]:not([disabled])",
   "input[type=\"radio\"]:not([disabled])",
   "[onclick]",
   "[tabindex]:not([tabindex=\"-1\"])"]

/-- The pre-deduplication candidate collection loop of findClickableElements:
for each selector in order (a throwing selector contributing nothing), keep the
visible matches whose bounding box resolves, recording the matching selector,
tag name, trimmed text and bounding box. -/
def collectMatches (page : DiscoveryPage) : List ElementInfo :=
  (clickableSelectors.map (fun sel =>
    match page.query sel with
    | none => []
    | some ms => ms.filterMap (fun m =>
        if m.visible then
          match m.boundingBox with
          | some bb =>
            some { selector := sel, tagName := m.tagName,
                   text := m.text.map trimJS, boundingBox := some bb }
          | none => none
        else none))).flatten

/-- The deduplication loop of findClickableElements: a `seen` set keyed by the
string `x,y,w,h` of the bounding box (distinct JS numbers stringify distinctly
and the components are comma-separated, so key equality coincides with
componentwise box equality, modelled here by keying on the box itself);
an element with an unseen box is appended and its box marked seen. -/
def dedupAux : List ElementInfo → List BoundingBox → List ElementInfo
  | [], _ => []
  | el :: rest, seen =>
    match el.boundingBox with
    | some bb =>
      if bb ∈ seen then dedupAux rest seen
      else el :: dedupAux rest (bb :: seen)
    | none => dedupAux rest seen

/-- helpers.ts findClickableElements: collect candidates over the fixed
selector list, then deduplicate by exact bounding-box coordinates. -/
def findClickableElements (page : DiscoveryPage) : List ElementInfo :=
  dedupAux (collectMatches page) []

/-- types.ts ScenarioMix. -/
structure ScenarioMix where
  normal : ℚ
  frustrated : ℚ
  lost : ℚ
  error : ℚ
deriving DecidableEq, Repr

/-- runner.ts selectScenario: one pass accumulating
`cumulative += mix.normal`, `+= mix.frustrated`, `+= mix.lost`, returning the
first arm whose accumulated bound exceeds the draw, and `error_user` otherwise. -/
def selectScenario (mix : ScenarioMix) (rand : ℚ) : ScenarioType :=
  if rand < mix.normal then .normal_user
  else if rand < mix.normal + mix.frustrated then .frustrated_user
  else if rand < mix.normal + mix.frustrated + mix.lost then .lost_user
  else .error_user

/-- The cumulative upper bounds of the four archetypes in the fixed order
normal, frustrated, lost, error. -/
def cumulativeBounds (mix : ScenarioMix) : List (ScenarioType × ℚ) :=
  [(.normal_user, mix.normal),
   (.frustrated_user, mix.normal + mix.frustrated),
   (.lost_user, mix.normal + mix.frustrated + mix.lost),
   (.error_user, mix.normal + mix.frustrated + mix.lost + mix.error)]

/-- Definition following the spec's words (for comparison with the code's
selectScenario): "Selection of an archetype for a session is a single weighted
draw against this distribution using one cumulative-sum pass with fixed
archetype order (normal, frustrated, lost, error) as tie-break order — the
archetype whose cumulative upper bound first exceeds the draw is chosen."
The fallback when no bound exceeds the draw (impossible for a normalized mix
and a draw below 1) is the last archetype. -/
def specCumulativeDraw (mix : ScenarioMix) (rand : ℚ) : ScenarioType :=
  (((cumulativeBounds mix).find? (fun p => decide (rand < p.2))).map (fun p => p.1)).getD
    .error_user

/-- run.js parseArgs, `--scenarioMix` branch, per-part assignment: split the
part at `:`, parse the weight, and assign it to the named archetype's slot
(unrecognized names are ignored).  Parts whose weight does not parse (JS would
produce NaN) leave the mix unchanged; no claim exercises such inputs. -/
def applyMixPart (mix : ScenarioMix) (part : String) : ScenarioMix :=
  let pieces := splitJS part ':'
  let scen := pieces.getD 0 ""
  let probStr := pieces.getD 1 ""
  match parseDecimal? probStr with
  | some probability =>
    if scen = "normal" then { mix with normal := probability }
    else if scen = "frustrated" then { mix with frustrated := probability }
    else if scen = "lost" then { mix with lost := probability }
    else if scen = "error" then { mix with error := probability }
    else mix
  | none => mix

/-- run.js parseArgs, `--scenarioMix` branch: split the mix string at commas,
fold the per-part assignments over a zero mix, and normalize the four weights
to sum to 1 when their raw sum is positive. -/
def parseScenarioMix (mixStr : String) : ScenarioMix :=
  let parts := splitJS mixStr ','
  let mix := parts.foldl applyMixPart { normal := 0, frustrated := 0, lost := 0, error := 0 }
  let sum := mix.normal + mix.frustrated + mix.lost + mix.error
  if 0 < sum then
    { normal := mix.normal / sum, frustrated := mix.frustrated / sum,
      lost := mix.lost / sum, error := mix.error / sum }
  else mix

/-- The scroll decision of scenarios.ts normalUserScenario:
`if (Math.random() > 0.6)`, with the per-action uniform draw `r` explicit. -/
def scrollHappens (r : ℚ) : Bool :=
  decide ((0.6 : ℚ) < r)

/-- The environment of one iteration of the normal scenario's action loop:
the element-pick draw, the pacing-delay draw, the page state after the
iteration's click settles, the scroll-decision draw, and the scroll-amount draw. -/
structure NormalActionEnv where
  pickDraw : ℚ
  pacingDraw : ℚ
  afterPage : PageState
  scrollDraw : ℚ
  scrollAmountDraw : ℚ
deriving Repr

/-- One iteration of the normal scenario's action loop (scenarios.ts lines
58-86): pick a random element (`none` models the `break` on an empty pick),
wait the pacing delay, run performDeadClick on the first iteration and
performClick afterwards, then, when the single scroll draw exceeds 0.6, scroll
by a random amount and log a `scroll` event. -/
def normalAction (elements : List ElementInfo) (i : ℕ) (a : NormalActionEnv)
    (p : PageState) : Option (List EventPayload × PageState) :=
  match randomChoice elements a.pickDraw with
  | none => none
  | some element =>
    let step :=
      if i == 0 then
        let r := performDeadClick p a.afterPage element
        ([r.1], r.2)
      else
        let r := performClick p a.afterPage element .normal_user
        ([r.1], r.2)
    if scrollHappens a.scrollDraw then
      let scrollAmount := randomInt 200 500 a.scrollAmountDraw
      some (step.1 ++
        [{ scenario := .normal_user
           event_type := .scroll
           url := step.2.url
           metadata := [("direction", .s "down"), ("amount", .q (scrollAmount : ℚ))] }],
        step.2)
    else some step

/-- The normal scenario's action loop, iterating from index `i` with
`remaining` iterations left, breaking when an element pick fails. -/
def normalActionsLoop (elements : List ElementInfo) (acts : ℕ → NormalActionEnv) :
    ℕ → ℕ → PageState → List EventPayload × PageState
  | 0, _, p => ([], p)
  | remaining + 1, i, p =>
    match normalAction elements i (acts i) p with
    | none => ([], p)
    | some (evs, p') =>
      let rest := normalActionsLoop elements acts remaining (i + 1) p'
      (evs ++ rest.1, rest.2)

/-- The environment of one normal-user session: the initial page state, the
result of the navigation (`none` when `page.goto` throws, with the thrown
error), the discovery probe, and the random draws the script consumes. -/
structure NormalEnv where
  startPage : PageState
  nav : Option PageState
  navErr : ErrInfo
  hesitancyDraw : ℚ
  discovery : DiscoveryPage
  numActionsDraw : ℚ
  actionEnv : ℕ → NormalActionEnv
  endIdleDraw : ℚ

/-- scenarios.ts normalUserScenario: session_start, navigation, initial
hesitancy idle, 3-5 actions (first one dead-click-checked) each optionally
accompanied by a scroll, trailing idle, session_end.  Returns the logged
payloads in emission order, with the error when the navigation throws
(propagating to the orchestrator). -/
def normalUserScenario (env : NormalEnv) (baseUrl : String) :
    List EventPayload × Option ErrInfo :=
  let ev0 : EventPayload :=
    { scenario := .normal_user, event_type := .session_start,
      url := env.startPage.url, metadata := [] }
  match env.nav with
  | none => ([ev0], some env.navErr)
  | some p1 =>
    let ev1 : EventPayload :=
      { scenario := .normal_user, event_type := .page_navigation, url := p1.url,
        metadata := [("target_url", .s (baseUrl ++ "/trade.html"))] }
    let hesitancy := randomInt 2000 5000 env.hesitancyDraw
    let ev2 : EventPayload :=
      { scenario := .normal_user, event_type := .idle, url := p1.url,
        metadata := [("duration_ms", .q (hesitancy : ℚ)), ("reason", .s "initial_hesitancy")] }
    let elements := findClickableElements env.discovery
    let numActions := (randomInt 3 5 env.numActionsDraw).toNat
    let actions := normalActionsLoop elements env.actionEnv numActions 0 p1
    let idleTime := randomInt 2000 4000 env.endIdleDraw
    let ev3 : EventPayload :=
      { scenario := .normal_user, event_type := .idle, url := actions.2.url,
        metadata := [("duration_ms", .q (idleTime : ℚ)), ("reason", .s "end_of_session")] }
    let ev4 : EventPayload :=
      { scenario := .normal_user, event_type := .session_end, url := actions.2.url,
        metadata := [("total_actions", .q (numActions : ℚ))] }
    ([ev0, ev1, ev2] ++ actions.1 ++ [ev3, ev4], none)

/-- The environment of one lost-user session: navigation result, discovery
probe, the page states after each of the script's clicks, and the draws. -/
structure LostEnv where
  startPage : PageState
  nav : Option PageState
  navErr : ErrInfo
  hesitancyDraw : ℚ
  discovery : DiscoveryPage
  drawA : ℚ
  drawB : ℚ
  afterA : PageState
  afterB : PageState
  coinDraw : ℚ
  afterBack : PageState
  refocusDraw : ℚ
  refocus1 : RefocusEnv
  refocus2 : RefocusEnv
  pauseDraw : ℚ

/-- scenarios.ts lostUserScenario: session_start, navigation, long hesitancy
idle; then `if (elements.length < 2) return;` — on fewer than two discovered
elements the script returns immediately, emitting no further events (in
particular no session_end).  Otherwise: the A/B/U-turn phase (element B drawn
from the candidates with A's occurrence removed, modelling the reference
filter `e !== elementA`; the back element searched by lowercased text or
selector containing "back", falling back to A itself), two refocus actions on
one random element, a confusion idle, and session_end.  Timed delays log
nothing and are omitted. -/
def lostUserScenario (env : LostEnv) (baseUrl : String) :
    List EventPayload × Option ErrInfo :=
  let ev0 : EventPayload :=
    { scenario := .lost_user, event_type := .session_start,
      url := env.startPage.url, metadata := [] }
  match env.nav with
  | none => ([ev0], some env.navErr)
  | some p1 =>
    let ev1 : EventPayload :=
      { scenario := .lost_user, event_type := .page_navigation, url := p1.url,
        metadata := [("target_url", .s (baseUrl ++ "/trade.html"))] }
    let longHesitancy := randomInt 5000 10000 env.hesitancyDraw
    let ev2 : EventPayload :=
      { scenario := .lost_user, event_type := .idle, url := p1.url,
        metadata := [("duration_ms", .q (longHesitancy : ℚ)), ("reason", .s "hesitation")] }
    let elements := findClickableElements env.discovery
    if elements.length < 2 then ([ev0, ev1, ev2], none)
    else
      let iA := randomIdx elements env.drawA
      let elementA? := elements.get? iA
      let elementB? := randomChoice (elements.eraseIdx iA) env.drawB
      let uturn :=
        match elementA?, elementB? with
        | some a, some b =>
          let urlBefore := p1.url
          let clickA := performClick p1 env.afterA a .lost_user
          let clickB := performClick clickA.2 env.afterB b .lost_user
          let pB := clickB.2
          if urlBefore == pB.url || decide ((0.5 : ℚ) < env.coinDraw) then
            let back? := ((elements.enum).find? (fun (ie : ℕ × ElementInfo) =>
              (match ie.2.text with
               | some t => includesJS (toLowerJS t) "back"
               | none => false) ||
              includesJS ie.2.selector "back" ||
              ie.1 == iA)).map (fun (ie : ℕ × ElementInfo) => ie.2)
            match back? with
            | some back =>
              let clickBack := performClick pB env.afterBack back .lost_user
              ([clickA.1, clickB.1, clickBack.1,
                { scenario := .lost_user, event_type := .u_turn, url := clickBack.2.url,
                  metadata := [("path", .strs [a.selector, b.selector, back.selector]),
                               ("duration_seconds", .q 7)] }], clickBack.2)
            | none => ([clickA.1, clickB.1], pB)
          else ([clickA.1, clickB.1], pB)
        | _, _ => ([], p1)
      let refocusPart :=
        match randomChoice elements env.refocusDraw with
        | some re =>
          let r1 := refocusClick uturn.2 env.refocus1 re .lost_user
          let r2 := refocusClick r1.2 env.refocus2 re .lost_user
          (r1.1 ++ r2.1, r2.2)
        | none => ([], uturn.2)
      let pause := randomInt 3000 7000 env.pauseDraw
      let ev3 : EventPayload :=
        { scenario := .lost_user, event_type := .idle, url := refocusPart.2.url,
          metadata := [("duration_ms", .q (pause : ℚ)), ("reason", .s "confusion")] }
      let ev4 : EventPayload :=
        { scenario := .lost_user, event_type := .session_end, url := refocusPart.2.url,
          metadata := [] }
      ([ev0, ev1, ev2] ++ uturn.1 ++ refocusPart.1 ++ [ev3, ev4], none)

/-- runner.ts generateSessionId. -/
def generateSessionId (index timestamp randomDraw : ℕ) : String :=
  "session_" ++ toString index ++ "_" ++ toString timestamp ++ "_" ++ toString randomDraw

/-- The `session_end` payload the orchestrator's catch block logs when a
scenario script throws: error message and stack in the metadata, current page
URL at catch time. -/
def sessionEndErrPayload (scenario : ScenarioType) (url : String) (err : ErrInfo) :
    EventPayload :=
  { scenario := scenario
    event_type := .session_end
    url := url
    metadata := [("error", .s err.message), ("stack", .s err.stack)] }

/-- The outcome of one session as observed from the orchestrator: the records
the logger emitted, and whether the logger and the browsing context were
closed. -/
structure SessionResult where
  events : List EventLog
  loggerClosed : Bool
  contextClosed : Bool
deriving DecidableEq, Repr

/-- runner.ts runSingleSession: construct the logger, run the scenario
(`outcome` is the payload sequence the script logged together with the
uncaught exception it ended in, if any), catch any such exception and log a
`session_end` carrying its message and stack, and close the logger and the
context in the finally block. -/
def runSingleSession (sessionId : String) (tsAt : ℕ → String) (scenario : ScenarioType)
    (outcome : List EventPayload × Option ErrInfo) (urlAtCatch : String) : SessionResult :=
  let logger : SessionLogger := { sessionId := sessionId }
  let payloads := outcome.1 ++
    (match outcome.2 with
     | some err => [sessionEndErrPayload scenario urlAtCatch err]
     | none => [])
  { events := logger.run tsAt payloads
    loggerClosed := true
    contextClosed := true }

/-- runner.ts runSessions: the strictly sequential per-session loop; session
`i` runs with its own scenario draw, identifier, timestamps and script
outcome, and the loop always advances to the next index. -/
def runSessions (sessions : ℕ) (scenarioOf : ℕ → ScenarioType)
    (outcomeOf : ℕ → List EventPayload × Option ErrInfo) (sessionIdOf : ℕ → String)
    (tsOf : ℕ → ℕ → String) (urlAtCatchOf : ℕ → String) : List SessionResult :=
  (List.range sessions).map (fun i =>
    runSingleSession (sessionIdOf i) (tsOf i) (scenarioOf i) (outcomeOf i) (urlAtCatchOf i))

/-! Concrete sample inputs used to instantiate the theorems below. -/

/-- The trade page in a representative state. -/
def tradePage : PageState :=
  { url := "http://localhost:8000/trade.html", headHtml := "h", bodyHtml := "b" }

/-- A page on which every selector query succeeds with no matches. -/
def emptyDiscovery : DiscoveryPage :=
  { query := fun _ => some [] }

/-- A lost-user session environment on a page with zero discoverable elements
(the degenerate case of the lost script), with a successful navigation. -/
def lostDegenerateEnv : LostEnv :=
  { startPage := { url := "about:blank", headHtml := "", bodyHtml := "" }
    nav := some tradePage
    navErr := { message := "", stack := "" }
    hesitancyDraw := 0
    discovery := emptyDiscovery
    drawA := 0
    drawB := 0
    afterA := tradePage
    afterB := tradePage
    coinDraw := 0
    afterBack := tradePage
    refocusDraw := 0
    refocus1 := { afterFirst := tradePage, delayDraw := 0, secondClickOk := true,
                  afterSecond := tradePage }
    refocus2 := { afterFirst := tradePage, delayDraw := 0, secondClickOk := true,
                  afterSecond := tradePage }
    pauseDraw := 0 }

/-- A single visible enabled button with a tab index, as observed by a
selector probe. -/
def buttonMatch : RawMatch :=
  { visible := true, tagName := "button", text := some "Next",
    boundingBox := some { x := 100, y := 200, width := 80, height := 30 } }

/-- A page with exactly one visible button, matched both by
`button:not([disabled])` and by `[tabindex]:not([tabindex="-1"])`. -/
def buttonPage : DiscoveryPage :=
  { query := fun sel =>
      if sel = "button:not([disabled])" || sel = "[tabindex]:not([tabindex=\"-1\"])" then
        some [buttonMatch]
      else some [] }

/-- The single candidate discovery on buttonPage should return: the first-seen
selector with the button's data. -/
def buttonElement : ElementInfo :=
  { selector := "button:not([disabled])", tagName := "button", text := some "Next",
    boundingBox := some { x := 100, y := 200, width := 80, height := 30 } }

/-- A sample interactive element. -/
def sampleElement : ElementInfo :=
  { selector := "#nextBtn", tagName := "button", text := some "Next",
    boundingBox := some { x := 1, y := 2, width := 3, height := 4 } }

/-- A refocus environment in which the second click succeeds. -/
def sampleRefocusEnv : RefocusEnv :=
  { afterFirst := tradePage, delayDraw := 0, secondClickOk := true,
    afterSecond := tradePage }

/-- A rage-click environment in which no repetition throws. -/
def sampleRageEnv : ℕ → RageStep :=
  fun _ => { ok := true, after := tradePage }

/-- A normal-scenario action environment whose scroll draw is below 0.6. -/
def sampleActionEnv : NormalActionEnv :=
  { pickDraw := 0, pacingDraw := 0, afterPage := tradePage, scrollDraw := 0,
    scrollAmountDraw := 0 }

/-- A sample log payload. -/
def samplePayload : EventPayload :=
  { scenario := .lost_user, event_type := .click,
    url := "http://localhost:8000/trade.html", selector := some "#nextBtn",
    metadata := [] }

theorem getHtmlSnapshot_ne_pageContent (p : PageState) :
    getHtmlSnapshot p ≠ pageContent p := by
  intro h
  have hlen := congrArg String.length h
  have h1 : ("<!DOCTYPE html><html><head>" : String).length = 27 := by rfl
  have h2 : ("</head><body>" : String).length = 13 := by rfl
  have h3 : ("</body></html>" : String).length = 14 := by rfl
  simp only [getHtmlSnapshot, pageContent, String.length_append, h1, h2, h3] at hlen
  omega

/-- C2: the claim says the before and after DOM snapshots are captured by the
same full-DOM-content probe and that an interaction with unchanged URL and
byte-identical DOM is classified dead.  The code captures the before snapshot
via `document.body.innerHTML` (getHtmlSnapshot) but the after snapshot via
`page.content()` (the full document serialization), so the two are never
byte-identical: a click with no effect whatsoever (page state unchanged, URL
unchanged) is classified NOT dead, contradicting the claim (and the code's own
comment, which intends the comparison to mean "no significant DOM change"). -/
theorem c2_no_effect_click_classified_not_dead :
    (∀ p : PageState, isDeadClick p p.url (getHtmlSnapshot p) = false) ∧
    isDeadClick tradePage tradePage.url (getHtmlSnapshot tradePage) = false := by
  constructor
  · intro p
    simp only [isDeadClick, Bool.and_eq_false_iff]
    right
    simp only [beq_eq_false_iff_ne, ne_eq]
    exact getHtmlSnapshot_ne_pageContent p
  · decide

/-- C9: every record a SessionLogger emits is the caller's payload extended
with the supplied timestamp and the session identifier the logger was
constructed with; no payload field is dropped or altered, and every record of
one logger instance carries the same session_id. -/
theorem c9_logger_record_shape (lg : SessionLogger) (ts : String) (e : EventPayload)
    (tsAt : ℕ → String) (events : List EventPayload) :
    ((lg.log ts e).ts = ts ∧
     (lg.log ts e).session_id = lg.sessionId ∧
     (lg.log ts e).scenario = e.scenario ∧
     (lg.log ts e).event_type = e.event_type ∧
     (lg.log ts e).url = e.url ∧
     (lg.log ts e).selector = e.selector ∧
     (lg.log ts e).metadata = e.metadata) ∧
    (lg.run tsAt events).all (fun r => r.session_id == lg.sessionId) = true := by
  refine ⟨⟨rfl, rfl, rfl, rfl, rfl, rfl, rfl⟩, ?_⟩
  simp only [SessionLogger.run, SessionLogger.log, List.all_eq_true, List.mem_map]
  rintro r ⟨ie, _, rfl⟩
  exact beq_self_eq_true lg.sessionId

/-- C10: selectScenario is total (always one of the four archetypes), it
returns error_user exactly when the draw is not below the cumulative sum of
the normal, frustrated and lost weights, and hence for a mix whose four
weights sum to s < 1 every draw at or above that cumulative sum — the entire
shortfall of probability mass — yields error_user. -/
theorem c10_selectScenario_total_error_fallthrough (mix : ScenarioMix) (rand : ℚ)
    (hn : 0 ≤ mix.normal) (hf : 0 ≤ mix.frustrated) (hl : 0 ≤ mix.lost)
    (he : 0 ≤ mix.error) (h0 : 0 ≤ rand) (h1 : rand < 1) :
    (selectScenario mix rand = .normal_user ∨
     selectScenario mix rand = .frustrated_user ∨
     selectScenario mix rand = .lost_user ∨
     selectScenario mix rand = .error_user) ∧
    (selectScenario mix rand = .error_user ↔
      mix.normal + mix.frustrated + mix.lost ≤ rand) := by
  unfold selectScenario
  split_ifs with hA hB hC
  · exact ⟨Or.inl rfl, by constructor <;> intro h <;> [cases h; linarith]⟩
  · exact ⟨Or.inr (Or.inl rfl), by constructor <;> intro h <;> [cases h; linarith]⟩
  · exact ⟨Or.inr (Or.inr (Or.inl rfl)), by constructor <;> intro h <;> [cases h; linarith]⟩
  · exact ⟨Or.inr (Or.inr (Or.inr rfl)), by constructor <;> intro h <;> [linarith; rfl]⟩

/-- C3: archetype selection agrees with the spec's single cumulative-sum pass
(first archetype whose cumulative upper bound exceeds the draw) on every
normalized mix and draw in [0,1); CLI normalization of the mix string
`normal:2,frustrated:2,lost:0,error:0` yields the weights (0.5, 0.5, 0, 0);
and no selection against those weights returns lost_user or error_user. -/
theorem c3_mix_normalization_and_cumulative_draw :
    parseScenarioMix "normal:2,frustrated:2,lost:0,error:0" =
      { normal := 1/2, frustrated := 1/2, lost := 0, error := 0 } ∧
    (∀ (mix : ScenarioMix) (rand : ℚ), 0 ≤ mix.normal → 0 ≤ mix.frustrated →
      0 ≤ mix.lost → 0 ≤ mix.error →
      mix.normal + mix.frustrated + mix.lost + mix.error = 1 →
      0 ≤ rand → rand < 1 →
      selectScenario mix rand = specCumulativeDraw mix rand) ∧
    (∀ rand : ℚ, 0 ≤ rand → rand < 1 →
      selectScenario { normal := 1/2, frustrated := 1/2, lost := 0, error := 0 } rand ≠
        .lost_user ∧
      selectScenario { normal := 1/2, frustrated := 1/2, lost := 0, error := 0 } rand ≠
        .error_user) := by
  refine ⟨?_, ?_, ?_⟩
  · have h : (splitJS "normal:2,frustrated:2,lost:0,error:0" ',').foldl applyMixPart
        { normal := 0, frustrated := 0, lost := 0, error := 0 } =
        { normal := ((2:ℕ):ℚ), frustrated := ((2:ℕ):ℚ), lost := ((0:ℕ):ℚ),
          error := ((0:ℕ):ℚ) } := rfl
    simp only [parseScenarioMix, h]
    norm_num
  · intro mix rand hn hf hl he hsum h0 h1
    unfold selectScenario specCumulativeDraw cumulativeBounds
    by_cases hA : rand < mix.normal
    · simp [hA]
    · by_cases hB : rand < mix.normal + mix.frustrated
      · simp [hA, hB]
      · by_cases hC : rand < mix.normal + mix.frustrated + mix.lost
        · simp [hA, hB, hC]
        · have hD : rand < mix.normal + mix.frustrated + mix.lost + mix.error := by
            rw [hsum]; exact h1
          simp [hA, hB, hC, hD]
  · intro rand h0 h1
    unfold selectScenario
    split_ifs with hA hB hC
    · exact ⟨fun h => ScenarioType.noConfusion h, fun h => ScenarioType.noConfusion h⟩
    · exact ⟨fun h => ScenarioType.noConfusion h, fun h => ScenarioType.noConfusion h⟩
    · exfalso; push_neg at hB; linarith
    · exfalso; push_neg at hB; linarith

theorem rageClickFrom_all_ok (p : PageState) (element : ElementInfo) (total : ℕ)
    (env : ℕ → RageStep) :
    ∀ (remaining i : ℕ), (∀ k, k < remaining → (env (i + k)).ok = true) →
      (rageClickFrom element total env remaining i (ragePageAt p env i)).1 =
        (List.range' i remaining).map (expectedRageEvent p env element total) := by
  intro remaining
  induction remaining with
  | zero => intro i _; simp [rageClickFrom]
  | succ n ih =>
    intro i hok
    have h0 : (env i).ok = true := by simpa using hok 0 (Nat.succ_pos _)
    have hrest := ih (i + 1) (fun k hk => by
      rw [show i + 1 + k = i + (k + 1) by omega]
      exact hok (k + 1) (by omega))
    have hafter : (env i).after = ragePageAt p env (i + 1) := rfl
    simp only [rageClickFrom, h0, if_true]
    rw [hafter, hrest]
    rfl

/-- C4: a rage-click burst of N repetitions in which no repetition throws logs
exactly N rage_click events, in order, the j-th (0-based) carrying
click_number j+1, total_clicks N, and that repetition's dead-click verdict
(computed from the page state at the start of the repetition and the page
state after its click). -/
theorem c4_rage_click_burst (p : PageState) (env : ℕ → RageStep) (element : ElementInfo)
    (N : ℕ) (hok : ∀ i, i < N → (env i).ok = true) :
    (rageClick p env element N).1 =
      (List.range N).map (expectedRageEvent p env element N) ∧
    (rageClick p env element N).1.length = N ∧
    (∀ j, j < N → (rageClick p env element N).1.get? j =
      some (expectedRageEvent p env element N j)) ∧
    (∀ j, j < N →
      (expectedRageEvent p env element N j).event_type = .rage_click ∧
      metaGet (expectedRageEvent p env element N j).metadata "click_number" =
        some (.q ((j : ℚ) + 1)) ∧
      metaGet (expectedRageEvent p env element N j).metadata "total_clicks" =
        some (.q (N : ℚ)) ∧
      metaGet (expectedRageEvent p env element N j).metadata "is_dead_click" =
        some (.b (isDeadClick (env j).after (ragePageAt p env j).url
          (getHtmlSnapshot (ragePageAt p env j))))) := by
  have hmain : (rageClick p env element N).1 =
      (List.range N).map (expectedRageEvent p env element N) := by
    have h := rageClickFrom_all_ok p element N env N 0 (fun k hk => by
      simpa using hok k hk)
    simpa [rageClick, List.range_eq_range'] using h
  refine ⟨hmain, ?_, ?_, ?_⟩
  · simp [hmain]
  · intro j hj
    simp only [hmain, List.get?_eq_getElem?, List.getElem?_map, List.getElem?_range hj,
      Option.map_some']
  · intro j hj
    exact ⟨rfl, rfl, rfl, rfl⟩

/-- Witness for C4: a 2-repetition burst with a throw-free environment. -/
theorem c4_witness :
    (rageClick tradePage sampleRageEnv sampleElement 2).1 =
      (List.range 2).map (expectedRageEvent tradePage sampleRageEnv sampleElement 2) :=
  (c4_rage_click_burst tradePage sampleRageEnv sampleElement 2 (fun i h => rfl)).1

theorem sessionLogger_run_concat (lg : SessionLogger) (tsAt : ℕ → String)
    (l : List EventPayload) (x : EventPayload) :
    lg.run tsAt (l ++ [x]) = lg.run tsAt l ++ [lg.log (tsAt l.length) x] := by
  simp [SessionLogger.run, List.enum, List.enumFrom_append, List.enumFrom_singleton]

theorem sessionLogger_run_map_event_type (lg : SessionLogger) (tsAt : ℕ → String)
    (es : List EventPayload) :
    (lg.run tsAt es).map EventLog.event_type = es.map EventPayload.event_type := by
  calc (lg.run tsAt es).map EventLog.event_type
      = es.enum.map (fun ie => ie.2.event_type) := by
        simp only [SessionLogger.run, List.map_map]
        rfl
    _ = (es.enum.map Prod.snd).map EventPayload.event_type := by rw [List.map_map]; rfl
    _ = es.map EventPayload.event_type := by rw [List.enum_map_snd]

/-- C5: when an archetype script ends in an uncaught exception, the
orchestrator's catch logs a final session_end record whose metadata carries
the error message and stack trace, the finally block still closes the logger
and the context, and the session loop provides every one of the n sessions
with its own result, independent of other sessions' failures. -/
theorem c5_failure_caught_at_orchestrator (sessionId : String) (tsAt : ℕ → String)
    (scenario : ScenarioType) (events : List EventPayload) (err : ErrInfo)
    (urlAtCatch : String) :
    ((runSingleSession sessionId tsAt scenario (events, some err) urlAtCatch).events.map
        EventLog.event_type =
      events.map EventPayload.event_type ++ [.session_end]) ∧
    ((runSingleSession sessionId tsAt scenario (events, some err) urlAtCatch).events.getLast? =
      some (SessionLogger.log { sessionId := sessionId } (tsAt events.length)
        (sessionEndErrPayload scenario urlAtCatch err))) ∧
    metaGet (sessionEndErrPayload scenario urlAtCatch err).metadata "error" =
      some (.s err.message) ∧
    metaGet (sessionEndErrPayload scenario urlAtCatch err).metadata "stack" =
      some (.s err.stack) ∧
    (sessionEndErrPayload scenario urlAtCatch err).event_type = .session_end ∧
    (runSingleSession sessionId tsAt scenario (events, some err) urlAtCatch).loggerClosed =
      true ∧
    (runSingleSession sessionId tsAt scenario (events, some err) urlAtCatch).contextClosed =
      true ∧
    (∀ (n : ℕ) (scenarioOf : ℕ → ScenarioType)
      (outcomeOf : ℕ → List EventPayload × Option ErrInfo) (sessionIdOf : ℕ → String)
      (tsOf : ℕ → ℕ → String) (urlOf : ℕ → String),
      (runSessions n scenarioOf outcomeOf sessionIdOf tsOf urlOf).length = n ∧
      ∀ i, i < n → (runSessions n scenarioOf outcomeOf sessionIdOf tsOf urlOf).get? i =
        some (runSingleSession (sessionIdOf i) (tsOf i) (scenarioOf i) (outcomeOf i)
          (urlOf i))) := by
  have hevents : (runSingleSession sessionId tsAt scenario (events, some err)
      urlAtCatch).events =
      SessionLogger.run { sessionId := sessionId } tsAt
        (events ++ [sessionEndErrPayload scenario urlAtCatch err]) := rfl
  refine ⟨?_, ?_, rfl, rfl, rfl, rfl, rfl, ?_⟩
  · rw [hevents, sessionLogger_run_map_event_type]
    simp [sessionEndErrPayload]
  · rw [hevents, sessionLogger_run_concat]
    exact List.getLast?_concat _
  · intro n scenarioOf outcomeOf sessionIdOf tsOf urlOf
    refine ⟨by simp [runSessions], ?_⟩
    intro i hi
    simp only [runSessions, List.get?_eq_getElem?, List.getElem?_map,
      List.getElem?_range hi, Option.map_some']

/-- C1: the claim says every session's event sequence ends with exactly one
session_end even on the lost script's degenerate path.  The code violates
this: `lostUserScenario` returns early when fewer than two elements are
discoverable (`if (elements.length < 2) return;`), after having logged only
session_start, page_navigation and idle; since no exception is thrown, the
orchestrator's catch does not run either, so the session's record sequence
contains no session_end at all (while it does begin with session_start). -/
theorem c1_lost_degenerate_session_missing_session_end :
    (lostUserScenario lostDegenerateEnv "http://localhost:8000").2 = none ∧
    ((runSingleSession "session_1_0_0" (fun _ => "t0") .lost_user
        (lostUserScenario lostDegenerateEnv "http://localhost:8000")
        "http://localhost:8000/trade.html").events.map EventLog.event_type =
      [.session_start, .page_navigation, .idle]) ∧
    (((runSingleSession "session_1_0_0" (fun _ => "t0") .lost_user
        (lostUserScenario lostDegenerateEnv "http://localhost:8000")
        "http://localhost:8000/trade.html").events.map EventLog.event_type).count
      .session_end = 0) := by
  decide

theorem dedupAux_mem_box :
    ∀ (l : List ElementInfo) (seen : List BoundingBox) (e : ElementInfo),
      e ∈ dedupAux l seen → ∃ bb, e.boundingBox = some bb ∧ bb ∉ seen
  | [], _, _ => by simp [dedupAux]
  | el :: rest, seen, e => by
    intro hmem
    cases hbox : el.boundingBox with
    | none =>
      simp only [dedupAux, hbox] at hmem
      exact dedupAux_mem_box rest seen e hmem
    | some bb =>
      simp only [dedupAux, hbox] at hmem
      by_cases hin : bb ∈ seen
      · rw [if_pos hin] at hmem
        exact dedupAux_mem_box rest seen e hmem
      · rw [if_neg hin] at hmem
        rcases List.mem_cons.1 hmem with rfl | htail
        · exact ⟨bb, hbox, hin⟩
        · obtain ⟨bb', hbb', hnot⟩ := dedupAux_mem_box rest (bb :: seen) e htail
          exact ⟨bb', hbb', fun hs => hnot (List.mem_cons_of_mem _ hs)⟩

theorem dedupAux_pairwise :
    ∀ (l : List ElementInfo) (seen : List BoundingBox),
      List.Pairwise (fun a b => a.boundingBox ≠ b.boundingBox) (dedupAux l seen)
  | [], _ => by simp [dedupAux]
  | el :: rest, seen => by
    cases hbox : el.boundingBox with
    | none =>
      simp only [dedupAux, hbox]
      exact dedupAux_pairwise rest seen
    | some bb =>
      simp only [dedupAux, hbox]
      by_cases hin : bb ∈ seen
      · rw [if_pos hin]
        exact dedupAux_pairwise rest seen
      · rw [if_neg hin]
        refine List.Pairwise.cons ?_ (dedupAux_pairwise rest (bb :: seen))
        intro b hb
        obtain ⟨bb', hbb', hnot⟩ := dedupAux_mem_box rest (bb :: seen) b hb
        rw [hbox, hbb']
        intro heq
        exact hnot ((Option.some.inj heq) ▸ List.mem_cons_self bb seen)

theorem dedupAux_keeps_first :
    ∀ (l : List ElementInfo) (seen : List BoundingBox) (e : ElementInfo),
      e ∈ dedupAux l seen →
        l.find? (fun x => x.boundingBox == e.boundingBox) = some e
  | [], _, _ => by simp [dedupAux]
  | el :: rest, seen, e => by
    intro hmem
    cases hbox : el.boundingBox with
    | none =>
      simp only [dedupAux, hbox] at hmem
      obtain ⟨bb', hbb', _⟩ := dedupAux_mem_box rest seen e hmem
      rw [List.find?_cons_of_neg _ (by simp [hbox, hbb'])]
      exact dedupAux_keeps_first rest seen e hmem
    | some bb =>
      simp only [dedupAux, hbox] at hmem
      by_cases hin : bb ∈ seen
      · rw [if_pos hin] at hmem
        obtain ⟨bb', hbb', hnot⟩ := dedupAux_mem_box rest seen e hmem
        have hne : bb ≠ bb' := fun h => hnot (h ▸ hin)
        rw [List.find?_cons_of_neg _ (by simp [hbox, hbb', hne])]
        exact dedupAux_keeps_first rest seen e hmem
      · rw [if_neg hin] at hmem
        rcases List.mem_cons.1 hmem with rfl | htail
        · exact List.find?_cons_of_pos _ (by simp)
        · obtain ⟨bb', hbb', hnot⟩ := dedupAux_mem_box rest (bb :: seen) e htail
          have hne : bb ≠ bb' := fun h => hnot (h ▸ List.mem_cons_self bb seen)
          rw [List.find?_cons_of_neg _ (by simp [hbox, hbb', hne])]
          exact dedupAux_keeps_first rest (bb :: seen) e htail

/-- C6: element discovery deduplicates by exact bounding-box coordinates — the
returned list never contains two elements with equal boxes, and each returned
element is the first pre-deduplication candidate with its box (so the
first-seen selector wins); in particular, a page with a single visible button
matched both by `button:not([disabled])` and by
`[tabindex]:not([tabindex="-1"])` yields exactly one InteractiveElement,
carrying the earlier selector. -/
theorem c6_discovery_dedup_by_bounding_box :
    (∀ page : DiscoveryPage,
      List.Pairwise (fun a b => a.boundingBox ≠ b.boundingBox)
        (findClickableElements page)) ∧
    (∀ (page : DiscoveryPage) (e : ElementInfo), e ∈ findClickableElements page →
      (collectMatches page).find? (fun x => x.boundingBox == e.boundingBox) = some e) ∧
    findClickableElements buttonPage = [buttonElement] := by
  refine ⟨fun page => dedupAux_pairwise _ _,
    fun page e h => dedupAux_keeps_first _ _ _ h, ?_⟩
  decide

/-- Witness for C6: the first-seen clause applied to the one element discovery
returns on buttonPage. -/
theorem c6_witness :
    (collectMatches buttonPage).find?
      (fun x => x.boundingBox == buttonElement.boundingBox) = some buttonElement :=
  c6_discovery_dedup_by_bounding_box.2.1 buttonPage buttonElement
    (by rw [c6_discovery_dedup_by_bounding_box.2.2]; exact List.mem_singleton_self _)

/-- C7 counterexample: on a successful second click, refocusClick's trace is
one `click` event followed by one `refocus` event — not two click events —
and the refocus event's metadata keys are exactly ["bounding_box"], so no
elapsed-time field is recorded, contradicting the claim. -/
theorem c7_counterexample :
    ((refocusClick tradePage sampleRefocusEnv sampleElement .lost_user).1.map
        (fun e => e.event_type) = [.click, .refocus]) ∧
    ((refocusClick tradePage sampleRefocusEnv sampleElement .lost_user).1.countP
        (fun e => e.event_type == .click) = 1) ∧
    ((refocusClick tradePage sampleRefocusEnv sampleElement .lost_user).1.map
        (fun e => e.metadata.map Prod.fst) =
      [["url_changed", "bounding_box", "text"], ["bounding_box"]]) := by
  decide

/-- C7 (amended): refocusClick performs a normal click (logged as one `click`
event by performClick), waits a randomDelay(500, 1500) — between 0.5s and
1.5s — and re-clicks the same element directly; when the second click
succeeds it logs a `refocus` event whose metadata carries only the element's
bounding box, so the trace holds exactly one click event and one refocus
event, with no elapsed-time metadata. -/
theorem c7_refocus_amended (p : PageState) (env : RefocusEnv) (element : ElementInfo)
    (scenario : ScenarioType) (h : env.secondClickOk = true) :
    refocusClick p env element scenario =
      ([(performClick p env.afterFirst element scenario).1,
        { scenario := scenario
          event_type := .refocus
          url := env.afterSecond.url
          selector := some element.selector
          metadata := [("bounding_box", .obox element.boundingBox)] }],
        env.afterSecond) ∧
    ((refocusClick p env element scenario).1.map (fun e => e.event_type) =
      [.click, .refocus]) ∧
    (∀ r : ℚ, 0 ≤ r → r ≤ 1 →
      500 ≤ randomDelayDur 500 1500 r ∧ randomDelayDur 500 1500 r ≤ 1500) := by
  refine ⟨?_, ?_, ?_⟩
  · simp [refocusClick, h]
  · simp [refocusClick, h, performClick]
  · intro r h0 h1
    unfold randomDelayDur
    constructor <;> nlinarith

/-- Witness for the amended C7, at a concrete successful-second-click
environment. -/
theorem c7_witness :
    (refocusClick tradePage sampleRefocusEnv sampleElement .lost_user).1.map
      (fun e => e.event_type) = [.click, .refocus] :=
  (c7_refocus_amended tradePage sampleRefocusEnv sampleElement .lost_user rfl).2.1

/-- C8 counterexample: the accompanying-scroll decision is the comparison
`Math.random() > 0.6`.  Over the ten equiprobable draws (2k+1)/20 (the
midpoints of the ten equal-width subintervals of [0,1)) exactly 4 trigger a
scroll, i.e. mass 4/10, and 4/10 is not greater than 6/10 — the claimed
probability bound (> 0.6) is false. -/
theorem c8_counterexample :
    ((List.range 10).countP (fun k => scrollHappens ((2 * (k : ℚ) + 1) / 20)) = 4) ∧
    ¬ ((4 : ℚ) / 10 > 6 / 10) := by
  constructor
  · rw [show List.range 10 = [0, 1, 2, 3, 4, 5, 6, 7, 8, 9] from rfl]
    norm_num [scrollHappens, List.countP_cons, List.countP_nil]
  · norm_num

/-- C8 (amended): in the normal archetype every action's accompanying-scroll
decision is a single uniform draw compared against 0.6, and a scroll event is
appended to the action's trace exactly when that draw strictly exceeds 0.6 —
i.e. with probability 0.4 under a uniform draw, not more than 0.6. -/
theorem c8_scroll_decision_amended (elements : List ElementInfo) (i : ℕ)
    (a : NormalActionEnv) (p : PageState)
    (h : (randomChoice elements a.pickDraw).isSome = true) :
    ((normalAction elements i a p).map
        (fun out => out.1.countP (fun e => e.event_type == .scroll))) =
      some (if scrollHappens a.scrollDraw then 1 else 0) ∧
    (scrollHappens a.scrollDraw = true ↔ (0.6 : ℚ) < a.scrollDraw) := by
  obtain ⟨element, helt⟩ := Option.isSome_iff_exists.1 h
  refine ⟨?_, by simp [scrollHappens]⟩
  simp only [normalAction, helt]
  split_ifs with hi hs hs <;>
    simp only [Option.map_some', performDeadClick, performClick] <;>
    cases hc : isDeadClick a.afterPage p.url (getHtmlSnapshot p) <;>
    simp [hc, List.countP_cons, List.countP_append, List.countP_nil]

/-- Witness for the amended C8: one concrete action whose scroll draw is 0. -/
theorem c8_witness :
    ((normalAction [sampleElement] 1 sampleActionEnv tradePage).map
        (fun out => out.1.countP (fun e => e.event_type == .scroll))) =
      some (if scrollHappens sampleActionEnv.scrollDraw then 1 else 0) ∧
    (scrollHappens sampleActionEnv.scrollDraw = true ↔
      (0.6 : ℚ) < sampleActionEnv.scrollDraw) :=
  c8_scroll_decision_amended [sampleElement] 1 sampleActionEnv tradePage
    (by norm_num [randomChoice, sampleActionEnv])

/-- Witness for C3: applying the selection clause at the draw 1/4 shows it
selects neither lost_user nor error_user. -/
theorem c3_witness :
    selectScenario { normal := 1/2, frustrated := 1/2, lost := 0, error := 0 } (1/4) ≠
      .lost_user ∧
    selectScenario { normal := 1/2, frustrated := 1/2, lost := 0, error := 0 } (1/4) ≠
      .error_user :=
  c3_mix_normalization_and_cumulative_draw.2.2 (1/4) (by norm_num) (by norm_num)

/-- Witness for C10: with the non-normalized mix (1/4, 1/4, 1/4, 0), whose
weights sum to 3/4 < 1, the draw 9/10 (which lies in the shortfall mass)
selects error_user. -/
theorem c10_witness :
    selectScenario { normal := 1/4, frustrated := 1/4, lost := 1/4, error := 0 } (9/10) =
      .error_user :=
  (c10_selectScenario_total_error_fallthrough
    { normal := 1/4, frustrated := 1/4, lost := 1/4, error := 0 } (9/10)
    (by norm_num) (by norm_num) (by norm_num) (by norm_num) (by norm_num)
    (by norm_num)).2.mpr (by norm_num)

/-- Witness for C9: a concrete record keeps the constructor's session
identifier. -/
theorem c9_witness :
    (SessionLogger.log { sessionId := "session_1_0_0" } "t0" samplePayload).session_id =
      "session_1_0_0" :=
  (c9_logger_record_shape { sessionId := "session_1_0_0" } "t0" samplePayload
    (fun _ => "t0") [samplePayload]).1.2.1

/-- Witness for C5: a session that logged one click and then threw ends its
record sequence with the catch block's session_end. -/
theorem c5_witness :
    (runSingleSession "session_1_0_0" (fun _ => "t0") .lost_user
        ([samplePayload], some { message := "boom", stack := "trace" })
        "http://localhost:8000/trade.html").events.map EventLog.event_type =
      [samplePayload].map EventPayload.event_type ++ [.session_end] :=
  (c5_failure_caught_at_orchestrator "session_1_0_0" (fun _ => "t0") .lost_user
    [samplePayload] { message := "boom", stack := "trace" }
    "http://localhost:8000/trade.html").1
